import Mathlib

/-!
Verification of the Greatplacetowork scraper (`company_data_scraper.py`)
against its natural-language specification.

The HTML/network primitives (BeautifulSoup queries, `urlopen`) are out of
scope per the spec; documents are embedded as the data those queries
yield:
* a detail page is its heading query result, the list of sub-heading
  texts, and the list of tooltip-marked hrefs;
* a listing page is the list of its article blocks, each block being the
  list of its bookmark hrefs;
* the homepage pagination block is the list of its link hrefs (`none`
  when the block is absent).
Python exceptions are embedded as `Except Unit` / `Option`: an uncaught
exception is `Except.error ()`, mirroring that the run produces no
output when one propagates.
-/

set_option maxHeartbeats 1000000

namespace GptwScraper

/-- Boolean test that one character list starts with another
(plain structural recursion so the kernel can evaluate it). -/
def startsWithB : List Char → List Char → Bool
  | [], _ => true
  | _ :: _, [] => false
  | a :: as, b :: bs => a == b && startsWithB as bs

/-- Boolean substring test on character lists: `hasSubB needle hay` holds
iff `needle` occurs contiguously inside `hay`. -/
def hasSubB (needle : List Char) : List Char → Bool
  | [] => needle.isEmpty
  | c :: rest => startsWithB needle (c :: rest) || hasSubB needle rest

/-- Python's `token in l` substring containment on strings. -/
def hasToken (l token : String) : Bool :=
  hasSubB token.data l.data

/-- Python's `lst[0] if len(lst) > 0 else None` idiom used throughout
`get_company_urls`. -/
def firstOrNone : List String → Option String
  | [] => none
  | x :: _ => some x

/-- Result of `get_company_info`: the three positional company
attributes. -/
structure CompanyInfo where
  number_of_employees : Option String
  sector : Option String
  headquarters : Option String
deriving DecidableEq, Repr

/-- Result of `get_company_urls`, fields in the order of the Python
output dictionary. -/
@[ext]
structure CompanyUrls where
  company_website : Option String
  linkedin : Option String
  facebook : Option String
  twitter : Option String
  instagram : Option String
deriving DecidableEq, Repr

/-- One output row, fields in the order produced by
`scrape_one_company_data` (name, then the info dict, then the urls
dict). -/
structure CompanyRecord where
  name : Option String
  number_of_employees : Option String
  sector : Option String
  headquarters : Option String
  company_website : Option String
  linkedin : Option String
  facebook : Option String
  twitter : Option String
  instagram : Option String
deriving DecidableEq, Repr

/-- Embedding of `get_company_info` (source lines 40-75): indexes elements 0, 1, 2 of
the sub-heading query result; an `IndexError` (fewer than three
elements) is caught and yields the all-`None` dictionary.  Each list
element is the element's `.string` (which Python may give as `None`
without raising). -/
def get_company_info (company_details : List (Option String)) : CompanyInfo :=
  match company_details with
  | d0 :: d1 :: d2 :: _ =>
    { number_of_employees := d0, sector := d1, headquarters := d2 }
  | _ =>
    { number_of_employees := none, sector := none, headquarters := none }

/-- Embedding of `get_company_urls` (source lines 78-146): filters the tooltip link
list by substring for each platform token, keeps the first match or
`None`, and takes as website the first link not equal to any of the four
claimed values.  On a list of hrefs no exception can occur, so the
`except` branch is unreachable in this embedding. -/
def get_company_urls (links : List String) : CompanyUrls :=
  let linkedin_url := firstOrNone (links.filter (fun l => hasToken l "linkedin"))
  let twitter_url := firstOrNone (links.filter (fun l => hasToken l "twitter"))
  let instagram_url := firstOrNone (links.filter (fun l => hasToken l "instagram"))
  let facebook_url := firstOrNone (links.filter (fun l => hasToken l "facebook"))
  let company_url := firstOrNone (links.filter (fun l =>
    !([linkedin_url, twitter_url, instagram_url, facebook_url].contains (some l))))
  { company_website := company_url
    linkedin := linkedin_url
    facebook := facebook_url
    twitter := twitter_url
    instagram := instagram_url }

/-- Modelled from the spec: the LinkClassifier algorithm as worded in
section 4.2 — "for each of the four social categories, select the first
URL in the input sequence (original order) whose text contains that
platform's domain token ...; if none matches, the category is null.
After removing all URLs claimed by any of the four categories, `website`
is the first remaining URL if exactly one or more remain (first one, by
original order), else null."  Used only to compare against the source
translation `get_company_urls`. -/
def classify_spec (urls : List String) : CompanyUrls :=
  let linkedin := urls.find? (fun u => hasToken u "linkedin")
  let twitter := urls.find? (fun u => hasToken u "twitter")
  let instagram := urls.find? (fun u => hasToken u "instagram")
  let facebook := urls.find? (fun u => hasToken u "facebook")
  let remaining := urls.filter (fun u =>
    !(some u == linkedin) && !(some u == twitter) &&
      !(some u == instagram) && !(some u == facebook))
  { company_website := remaining.head?
    linkedin := linkedin
    facebook := facebook
    twitter := twitter
    instagram := instagram }

/-- A company detail page, as seen through the three queries the code
performs on it: `heading` is the `find('h1', ...)` result (`none` when
the element is absent, `some s` when present with `.string = s`),
`subHeadings` the `.string`s of the sub-heading `findAll`, and
`tooltipLinks` the hrefs of the tooltip-marked links. -/
structure DetailDoc where
  heading : Option (Option String)
  subHeadings : List (Option String)
  tooltipLinks : List String
deriving DecidableEq, Repr

/-- Assembly of the output dictionary of `scrape_one_company_data`:
`name`, then `update` with the info dict, then `update` with the urls
dict. -/
def mkRecord (company_name : Option String) (info : CompanyInfo)
    (urls : CompanyUrls) : CompanyRecord :=
  { name := company_name
    number_of_employees := info.number_of_employees
    sector := info.sector
    headquarters := info.headquarters
    company_website := urls.company_website
    linkedin := urls.linkedin
    facebook := urls.facebook
    twitter := urls.twitter
    instagram := urls.instagram }

/-- The document-level part of `scrape_one_company_data` (source lines
165-174): `soup.find('h1', ...)` returning `None` makes the subsequent
`.string` access raise `AttributeError`, which nothing catches —
embedded as `Except.error ()`.  Otherwise the record is assembled from
the three independent extractions. -/
def extract_company_record (soup : DetailDoc) : Except Unit CompanyRecord :=
  match soup.heading with
  | none => Except.error ()
  | some company_name =>
    Except.ok (mkRecord company_name (get_company_info soup.subHeadings)
      (get_company_urls soup.tooltipLinks))

/-- Embedding of `scrape_one_company_data` (source lines 149-174): fetch the detail
page (a fetch failure raises, uncaught) and extract the record. -/
def scrape_one_company_data (fetch : String → Except Unit DetailDoc)
    (company_url : String) : Except Unit CompanyRecord :=
  match fetch company_url with
  | Except.error e => Except.error e
  | Except.ok soup => extract_company_record soup

/-- Embedding of `scrape_page_companies` (source lines 177-202): for each article
block, `company_href[0]` raises `IndexError` when the block has no
bookmark link (uncaught), then the company is scraped (failures
uncaught) and appended. -/
def scrape_page_companies (fetch : String → Except Unit DetailDoc) :
    List (List String) → Except Unit (List CompanyRecord)
  | [] => Except.ok []
  | company :: rest =>
    match company with
    | [] => Except.error ()
    | company_url :: _ =>
      match scrape_one_company_data fetch company_url with
      | Except.error e => Except.error e
      | Except.ok company_data_dict =>
        match scrape_page_companies fetch rest with
        | Except.error e => Except.error e
        | Except.ok tail => Except.ok (company_data_dict :: tail)

/-- Python's `split('/')` on a character list: splits on every
occurrence of `c`, keeping empty segments. -/
def splitOnChar (c : Char) : List Char → List (List Char)
  | [] => [[]]
  | a :: rest =>
    let r := splitOnChar c rest
    if a == c then [] :: r
    else
      match r with
      | [] => [[a]]
      | s :: ss => (a :: s) :: ss

/-- Value of a decimal digit character, `none` otherwise. -/
def digitVal? (c : Char) : Option Nat :=
  if '0' ≤ c && c ≤ '9' then some (c.toNat - '0'.toNat) else none

/-- Python's `int(...)` on a plain decimal digit string (character
list); `none` when the string is empty or holds a non-digit, where
`int` raises `ValueError`. -/
def charsToNat? (cs : List Char) : Option Nat :=
  match cs with
  | [] => none
  | _ :: _ =>
    cs.foldl
      (fun acc c =>
        match acc, digitVal? c with
        | some a, some d => some (a * 10 + d)
        | _, _ => none)
      (some 0)

/-- Embedding of `get_website_num_pages` (source lines 206-229), with the homepage
document embedded as its pagination block's link hrefs (`none` when the
`pagenav` div is absent).  Every failure (`find` returning `None`,
`pages[-1]` on an empty list, `split('/')[-2]` on a short list,
`int(...)` on a non-number) raises uncaught — embedded as `none`. -/
def get_website_num_pages (pagenav : Option (List String)) : Option Nat :=
  match pagenav with
  | none => none
  | some pages =>
    match pages.getLast? with
    | none => none
    | some last_page_url =>
      match (splitOnChar '/' last_page_url.data).reverse[1]? with
      | none => none
      | some seg => charsToNat? seg

/-- Embedding of `get_pages_url_list` (source lines 232-256): for `page` in
`1..number_of_pages`, page 1 is the homepage URL verbatim, later pages
are `homepage_url + "page/" + page + "/"`. -/
def get_pages_url_list (homepage_url : String) (pagenav : Option (List String)) :
    Option (List String) :=
  match get_website_num_pages pagenav with
  | none => none
  | some number_of_pages =>
    some ((List.range' 1 number_of_pages).map (fun page =>
      if page = 1 then homepage_url
      else homepage_url ++ "page/" ++ Nat.repr page ++ "/"))

/-- The page loop of `CompaniesDataScraper` (source lines 272-277): each
page is fetched (failure uncaught) and scraped (failures uncaught), the
records concatenated in page order. -/
def crawl_all_pages (fetchListing : String → Except Unit (List (List String)))
    (fetchDetail : String → Except Unit DetailDoc) :
    List String → Except Unit (List CompanyRecord)
  | [] => Except.ok []
  | page_url :: rest =>
    match fetchListing page_url with
    | Except.error e => Except.error e
    | Except.ok soup =>
      match scrape_page_companies fetchDetail soup with
      | Except.error e => Except.error e
      | Except.ok page_companies_list =>
        match crawl_all_pages fetchListing fetchDetail rest with
        | Except.error e => Except.error e
        | Except.ok acc => Except.ok (page_companies_list ++ acc)

/-- Embedding of `CompaniesDataScraper` (source lines 259-282): pagination discovery
(fatal on failure) followed by the page loop.  Writing the CSV is out of
scope; the returned list is the row sequence of the dataframe. -/
def CompaniesDataScraper (homepage_url : String) (pagenav : Option (List String))
    (fetchListing : String → Except Unit (List (List String)))
    (fetchDetail : String → Except Unit DetailDoc) :
    Except Unit (List CompanyRecord) :=
  match get_pages_url_list homepage_url pagenav with
  | none => Except.error ()
  | some pages_url_list => crawl_all_pages fetchListing fetchDetail pages_url_list

/-- The four platform tokens of the classifier, in the order the code
tests them. -/
def socialTokens : List String :=
  ["linkedin", "twitter", "instagram", "facebook"]

/-- The classifier field claimed by a given platform token. -/
def socialValue (r : CompanyUrls) (t : String) : Option String :=
  if t = "linkedin" then r.linkedin
  else if t = "twitter" then r.twitter
  else if t = "instagram" then r.instagram
  else if t = "facebook" then r.facebook
  else none

/-- The non-null values of a classification result, in output-dictionary
order. -/
def outputValues (r : CompanyUrls) : List String :=
  [r.company_website, r.linkedin, r.facebook, r.twitter, r.instagram].filterMap id

/-- How many of the five output fields claim the URL `u`. -/
def claimCount (r : CompanyUrls) (u : String) : Nat :=
  (([r.company_website, r.linkedin, r.facebook, r.twitter, r.instagram]).filter
    (fun o => o == some u)).length

/-- A well-formed detail page used as concrete test data: heading
present with text, three sub-headings, one social and one plain link. -/
def docA : DetailDoc :=
  { heading := some (some "Acme")
    subHeadings := [some "500", some "Tech", some "Madrid"]
    tooltipLinks := ["alinkedin", "bsite"] }

/-- The record the scraper produces from `docA`. -/
def recA : CompanyRecord :=
  { name := some "Acme"
    number_of_employees := some "500"
    sector := some "Tech"
    headquarters := some "Madrid"
    company_website := some "bsite"
    linkedin := some "alinkedin"
    facebook := none
    twitter := none
    instagram := none }

/-- Detail fetcher that always succeeds with `docA`. -/
def fetchA : String → Except Unit DetailDoc :=
  fun _ => Except.ok docA

/-- Detail fetcher that fails on the URL `u1` and yields `docA`
elsewhere. -/
def fetchFailU1 : String → Except Unit DetailDoc :=
  fun u => if u = "u1" then Except.error () else Except.ok docA

/-- Listing fetcher that fails on the page URL `p1` and elsewhere yields
one article whose bookmark link is `u2`. -/
def fetchListingFailP1 : String → Except Unit (List (List String)) :=
  fun u => if u = "p1" then Except.error () else Except.ok [["u2"]]

/-! ### Helper lemmas -/

theorem firstOrNone_eq_head? (xs : List String) : firstOrNone xs = xs.head? := by
  cases xs <;> rfl

theorem find?_eq_firstOrNone (p : String → Bool) (xs : List String) :
    xs.find? p = firstOrNone (xs.filter p) := by
  induction xs with
  | nil => rfl
  | cons a l ih =>
    by_cases hp : p a
    · simp [List.find?_cons, List.filter_cons, hp, firstOrNone]
    · simp only [List.find?_cons, List.filter_cons, hp]
      simpa using ih

theorem foFilter_some {p : String → Bool} {xs : List String} {x : String}
    (h : firstOrNone (xs.filter p) = some x) : p x = true ∧ x ∈ xs := by
  induction xs with
  | nil => simp [firstOrNone] at h
  | cons a l ih =>
    by_cases hp : p a
    · simp only [List.filter_cons, hp, if_true, firstOrNone, Option.some.injEq] at h
      subst h
      exact ⟨hp, List.mem_cons_self a l⟩
    · simp only [List.filter_cons, hp, if_false] at h
      have := ih h
      exact ⟨this.1, List.mem_cons_of_mem a this.2⟩

theorem foFilter_eq {p : String → Bool} {xs : List String} {v : Option String}
    (hmem : ∀ x ∈ xs, p x = true → some x = v)
    (hv : ∀ x, v = some x → x ∈ xs ∧ p x = true) :
    firstOrNone (xs.filter p) = v := by
  induction xs with
  | nil =>
    cases v with
    | none => rfl
    | some x => exact absurd (hv x rfl).1 (List.not_mem_nil x)
  | cons a l ih =>
    by_cases hp : p a
    · simp only [List.filter_cons, hp, if_true, firstOrNone]
      exact hmem a (List.mem_cons_self a l) hp
    · simp only [List.filter_cons, hp, if_false]
      refine ih (fun x hx hpx => hmem x (List.mem_cons_of_mem a hx) hpx) (fun x hvx => ?_)
      rcases hv x hvx with ⟨hmemx, hpx⟩
      rcases List.mem_cons.1 hmemx with rfl | hmemx
      · exact absurd hpx (by simp [hp])
      · exact ⟨hmemx, hpx⟩

theorem gcu_linkedin (links : List String) :
    (get_company_urls links).linkedin =
      firstOrNone (links.filter (fun l => hasToken l "linkedin")) := rfl

theorem gcu_twitter (links : List String) :
    (get_company_urls links).twitter =
      firstOrNone (links.filter (fun l => hasToken l "twitter")) := rfl

theorem gcu_instagram (links : List String) :
    (get_company_urls links).instagram =
      firstOrNone (links.filter (fun l => hasToken l "instagram")) := rfl

theorem gcu_facebook (links : List String) :
    (get_company_urls links).facebook =
      firstOrNone (links.filter (fun l => hasToken l "facebook")) := rfl

theorem gcu_website (links : List String) :
    (get_company_urls links).company_website =
      firstOrNone (links.filter (fun l =>
        !([(get_company_urls links).linkedin, (get_company_urls links).twitter,
           (get_company_urls links).instagram,
           (get_company_urls links).facebook].contains (some l)))) := rfl

/-- If a social field is `some x`, then `x` is an input link carrying
that field's token. -/
theorem linkedin_some {links : List String} {x : String}
    (h : (get_company_urls links).linkedin = some x) :
    hasToken x "linkedin" = true ∧ x ∈ links := by
  rw [gcu_linkedin] at h
  exact foFilter_some h

theorem twitter_some {links : List String} {x : String}
    (h : (get_company_urls links).twitter = some x) :
    hasToken x "twitter" = true ∧ x ∈ links := by
  rw [gcu_twitter] at h
  exact foFilter_some h

theorem instagram_some {links : List String} {x : String}
    (h : (get_company_urls links).instagram = some x) :
    hasToken x "instagram" = true ∧ x ∈ links := by
  rw [gcu_instagram] at h
  exact foFilter_some h

theorem facebook_some {links : List String} {x : String}
    (h : (get_company_urls links).facebook = some x) :
    hasToken x "facebook" = true ∧ x ∈ links := by
  rw [gcu_facebook] at h
  exact foFilter_some h

/-- Unfolding step for `crawl_all_pages` when the page fetch fails. -/
theorem crawl_cons_err {fetchListing : String → Except Unit (List (List String))}
    {url : String} (fetchDetail : String → Except Unit DetailDoc)
    (hf : fetchListing url = Except.error ()) (rest : List String) :
    crawl_all_pages fetchListing fetchDetail (url :: rest) = Except.error () := by
  rw [crawl_all_pages, hf]

/-- Unfolding step for `crawl_all_pages` when the page fetch succeeds. -/
theorem crawl_cons_ok {fetchListing : String → Except Unit (List (List String))}
    {url : String} {arts : List (List String)}
    (fetchDetail : String → Except Unit DetailDoc)
    (hf : fetchListing url = Except.ok arts) (rest : List String) :
    crawl_all_pages fetchListing fetchDetail (url :: rest) =
      match scrape_page_companies fetchDetail arts with
      | Except.error e => Except.error e
      | Except.ok page_companies_list =>
        match crawl_all_pages fetchListing fetchDetail rest with
        | Except.error e => Except.error e
        | Except.ok acc => Except.ok (page_companies_list ++ acc) := by
  rw [crawl_all_pages, hf]

/-- The website value satisfies the residual filter: it is an input link
distinct from the four claimed values. -/
theorem website_some {links : List String} {x : String}
    (h : (get_company_urls links).company_website = some x) :
    (some x ≠ (get_company_urls links).linkedin ∧
     some x ≠ (get_company_urls links).twitter ∧
     some x ≠ (get_company_urls links).instagram ∧
     some x ≠ (get_company_urls links).facebook) ∧ x ∈ links := by
  rw [gcu_website] at h
  have hfs := foFilter_some h
  refine ⟨?_, hfs.2⟩
  have hb := hfs.1
  simp only [List.contains_cons, List.contains_nil, Bool.or_false, Bool.not_or,
    Bool.and_eq_true, Bool.not_eq_true', beq_eq_false_iff_ne] at hb
  tauto

/-- Being unclaimed by the four categories, as a Bool, matches the four
disequalities. -/
theorem notContains4_iff (v1 v2 v3 v4 : Option String) (x : String) :
    (!([v1, v2, v3, v4].contains (some x))) = true ↔
      (some x ≠ v1 ∧ some x ≠ v2 ∧ some x ≠ v3 ∧ some x ≠ v4) := by
  simp [List.contains_cons, Bool.not_or, beq_eq_false_iff_ne, and_assoc]

theorem socialValue_linkedin (r : CompanyUrls) :
    socialValue r "linkedin" = r.linkedin := rfl

theorem socialValue_twitter (r : CompanyUrls) :
    socialValue r "twitter" = r.twitter := rfl

theorem socialValue_instagram (r : CompanyUrls) :
    socialValue r "instagram" = r.instagram := rfl

theorem socialValue_facebook (r : CompanyUrls) :
    socialValue r "facebook" = r.facebook := rfl

/-- A five-element filter count is at most one when no two of the
elements simultaneously equal `some u`. -/
theorem count_le_one (a b c d e : Option String) (u : String)
    (hab : ¬(a = some u ∧ b = some u)) (hac : ¬(a = some u ∧ c = some u))
    (had : ¬(a = some u ∧ d = some u)) (hae : ¬(a = some u ∧ e = some u))
    (hbc : ¬(b = some u ∧ c = some u)) (hbd : ¬(b = some u ∧ d = some u))
    (hbe : ¬(b = some u ∧ e = some u)) (hcd : ¬(c = some u ∧ d = some u))
    (hce : ¬(c = some u ∧ e = some u)) (hde : ¬(d = some u ∧ e = some u)) :
    (([a, b, c, d, e]).filter (fun o => o == some u)).length ≤ 1 := by
  by_cases h1 : a = some u <;> by_cases h2 : b = some u <;>
    by_cases h3 : c = some u <;> by_cases h4 : d = some u <;>
      by_cases h5 : e = some u <;>
        simp_all [List.filter_cons, List.filter_nil]

/-! ### Claim C2 -/

/-- Claim C2, counterexample: on a detail page whose heading element is
absent, the uncaught `AttributeError` aborts extraction entirely
(`Except.error`), even though both attribute extraction and link
classification would succeed on the very same page — so name, attribute
and link extraction do not fail independently as claimed. -/
theorem claim_C2_cex :
    extract_company_record
      { heading := none
        subHeadings := [some "500", some "Tech", some "Madrid"]
        tooltipLinks := ["alinkedin", "bsite"] } = Except.error () ∧
    get_company_info [some "500", some "Tech", some "Madrid"] =
      { number_of_employees := some "500", sector := some "Tech",
        headquarters := some "Madrid" } ∧
    get_company_urls ["alinkedin", "bsite"] =
      { company_website := some "bsite", linkedin := some "alinkedin",
        facebook := none, twitter := none, instagram := none } :=
  ⟨rfl, rfl, rfl⟩

/-- Claim C2, amended: when the heading element is present, the record
is assembled with the name (the heading's text, possibly null), the
attribute group and the link group, the latter two computed
independently of one another — in particular an empty sub-heading list
degrades only the attribute group to nulls while the links still
contribute.  When the heading element is absent, however, extraction
aborts with an uncaught error and the other two groups are suppressed. -/
theorem claim_C2 :
    (∀ (h : Option String) (sh : List (Option String)) (lk : List String),
      extract_company_record { heading := some h, subHeadings := sh, tooltipLinks := lk } =
        Except.ok (mkRecord h (get_company_info sh) (get_company_urls lk))) ∧
    (∀ (h : Option String) (lk : List String),
      extract_company_record { heading := some h, subHeadings := [], tooltipLinks := lk } =
        Except.ok (mkRecord h
          { number_of_employees := none, sector := none, headquarters := none }
          (get_company_urls lk))) ∧
    (∀ (sh : List (Option String)) (lk : List String),
      extract_company_record { heading := none, subHeadings := sh, tooltipLinks := lk } =
        Except.error ()) :=
  ⟨fun _ _ _ => rfl, fun _ _ => rfl, fun _ _ => rfl⟩

/-! ### Claim C5 -/

/-- Claim C5, counterexample: with four matching sub-heading elements —
a count different from exactly three — `get_company_info` does not
return the all-null dictionary; it returns the positional prefix of the
first three texts. -/
theorem claim_C5_cex :
    get_company_info [some "10", some "Tech", some "Madrid", some "Extra"] =
      { number_of_employees := some "10", sector := some "Tech",
        headquarters := some "Madrid" } ∧
    get_company_info [some "10", some "Tech", some "Madrid", some "Extra"] ≠
      { number_of_employees := none, sector := none, headquarters := none } :=
  ⟨rfl, by decide⟩

/-- Claim C5, amended: with fewer than three matching sub-heading
elements `get_company_info` returns the all-null dictionary; with three
or more it returns the texts of the first three, in the fixed order
employee count, sector, headquarters (so an excess of elements yields a
positional-prefix result, not the all-null fallback). -/
theorem claim_C5 :
    (∀ ds : List (Option String), ds.length < 3 →
      get_company_info ds =
        { number_of_employees := none, sector := none, headquarters := none }) ∧
    (∀ (d0 d1 d2 : Option String) (tl : List (Option String)),
      get_company_info (d0 :: d1 :: d2 :: tl) =
        { number_of_employees := d0, sector := d1, headquarters := d2 }) := by
  constructor
  · intro ds hds
    match ds with
    | [] => rfl
    | [_] => rfl
    | [_, _] => rfl
    | _ :: _ :: _ :: _ =>
      simp only [List.length_cons] at hds
      omega
  · intro d0 d1 d2 tl
    rfl

/-- Witness for the amended C5 at concrete inputs. -/
theorem claim_C5_witness :
    ([some "10"] : List (Option String)).length < 3 ∧
    get_company_info [some "10"] =
      { number_of_employees := none, sector := none, headquarters := none } :=
  ⟨by decide, claim_C5.1 [some "10"] (by decide)⟩

/-! ### Claim C9 -/

/-- Claim C9, counterexample: a page whose first article block lacks the
bookmark link aborts the whole page scrape with an uncaught
`IndexError` — the second article, which alone would yield a record, is
never processed; the defective container is not skipped. -/
theorem claim_C9_cex :
    scrape_page_companies fetchA [[], ["u2"]] = Except.error () ∧
    scrape_page_companies fetchA [["u2"]] = Except.ok [recA] :=
  ⟨rfl, rfl⟩

/-- Claim C9, amended: an article block lacking the expected bookmark
link is not skipped — it aborts extraction of the entire page: whenever
the preceding blocks scrape successfully, a link-less block makes the
page scrape fail, and the remaining blocks are never processed. -/
theorem claim_C9 (fetch : String → Except Unit DetailDoc)
    (pre rest : List (List String)) (recs : List CompanyRecord)
    (hpre : scrape_page_companies fetch pre = Except.ok recs) :
    scrape_page_companies fetch (pre ++ [] :: rest) = Except.error () := by
  induction pre generalizing recs with
  | nil => rfl
  | cons a l ih =>
    cases a with
    | nil => exact Except.noConfusion hpre
    | cons u tl =>
      rw [List.cons_append]
      rw [scrape_page_companies] at hpre ⊢
      cases hs : scrape_one_company_data fetch u with
      | error e => rfl
      | ok d =>
        rw [hs] at hpre
        cases ht : scrape_page_companies fetch l with
        | error e =>
          rw [ht] at hpre
          exact Except.noConfusion hpre
        | ok tail => rw [ih tail ht]

/-- Witness for the amended C9 at concrete inputs. -/
theorem claim_C9_witness :
    scrape_page_companies fetchA [["u2"]] = Except.ok [recA] ∧
    scrape_page_companies fetchA ([["u2"]] ++ [] :: [["u3"]]) = Except.error () :=
  ⟨rfl, claim_C9 fetchA [["u2"]] [["u3"]] [recA] rfl⟩

/-! ### Claim C4 -/

/-- Claim C4, counterexample: when the detail fetch for the company URL
`u1` fails, the whole page scrape aborts with an error — no dataset is
produced at all, so the output neither contains a null-filled record for
`u1` nor any record for `u2`, whose scrape alone would succeed. -/
theorem claim_C4_cex :
    scrape_page_companies fetchFailU1 [["u1"], ["u2"]] = Except.error () ∧
    scrape_page_companies fetchFailU1 [["u2"]] = Except.ok [recA] :=
  ⟨rfl, rfl⟩

/-- Claim C4, amended: when a page scrape succeeds, the output contains
exactly one record per discovered company URL, in discovery order, each
being the extraction result for its URL; but a company whose detail
fetch or extraction fails aborts the whole page scrape with an error
instead of contributing a null-filled record. -/
theorem claim_C4 :
    (∀ (fetch : String → Except Unit DetailDoc) (arts : List (List String))
        (recs : List CompanyRecord),
      scrape_page_companies fetch arts = Except.ok recs →
      recs.length = arts.length ∧
      ∀ (i : Nat) (u : String) (tl : List String), arts[i]? = some (u :: tl) →
        ∃ r, recs[i]? = some r ∧ scrape_one_company_data fetch u = Except.ok r) ∧
    (∀ (fetch : String → Except Unit DetailDoc) (u : String) (tl : List String)
        (arts : List (List String)),
      scrape_one_company_data fetch u = Except.error () →
      scrape_page_companies fetch ((u :: tl) :: arts) = Except.error ()) := by
  constructor
  · intro fetch arts
    induction arts with
    | nil =>
      intro recs hpre
      cases hpre
      exact ⟨rfl, fun i u tl h => by simp at h⟩
    | cons a l ih =>
      intro recs hpre
      cases a with
      | nil => exact Except.noConfusion hpre
      | cons u0 tl0 =>
        rw [scrape_page_companies] at hpre
        cases hs : scrape_one_company_data fetch u0 with
        | error e =>
          rw [hs] at hpre
          exact Except.noConfusion hpre
        | ok d =>
          rw [hs] at hpre
          cases ht : scrape_page_companies fetch l with
          | error e =>
            rw [ht] at hpre
            exact Except.noConfusion hpre
          | ok tail =>
            rw [ht] at hpre
            cases hpre
            rcases ih tail ht with ⟨hlen, hidx⟩
            refine ⟨by simp [hlen], ?_⟩
            intro i u tl hi
            cases i with
            | zero =>
              simp only [List.getElem?_cons_zero, Option.some.injEq] at hi
              cases hi
              exact ⟨d, by simp, hs⟩
            | succ j =>
              simp only [List.getElem?_cons_succ] at hi ⊢
              exact hidx j u tl hi
  · intro fetch u tl arts h
    rw [scrape_page_companies, h]

/-- Witness for the amended C4 at concrete inputs. -/
theorem claim_C4_witness :
    (([recA].length = ([["u2"]] : List (List String)).length) ∧
      ∀ (i : Nat) (u : String) (tl : List String),
        ([["u2"]] : List (List String))[i]? = some (u :: tl) →
        ∃ r, ([recA] : List CompanyRecord)[i]? = some r ∧
          scrape_one_company_data fetchFailU1 u = Except.ok r) ∧
    scrape_page_companies fetchFailU1 [["u1"]] = Except.error () :=
  ⟨claim_C4.1 fetchFailU1 [["u2"]] [recA] rfl, claim_C4.2 fetchFailU1 "u1" [] [] rfl⟩

/-! ### Claim C3 -/

/-- Claim C3, counterexample: a fetch failure on the listing page `p1`
aborts the whole run with an error — the orchestrator does not continue
with `p2`, whose processing alone would yield a record. -/
theorem claim_C3_cex :
    crawl_all_pages fetchListingFailP1 fetchA ["p1", "p2"] = Except.error () ∧
    crawl_all_pages fetchListingFailP1 fetchA ["p2"] = Except.ok [recA] :=
  ⟨rfl, rfl⟩

/-- Claim C3, amended: a fetch or parse failure on a single listing page
is never skipped — it aborts the entire run: whenever the pages before
it process successfully and the failing page either does not fetch or
does not scrape, the whole crawl returns an error and produces no
dataset (the later pages are never processed). -/
theorem claim_C3 (fetchListing : String → Except Unit (List (List String)))
    (fetchDetail : String → Except Unit DetailDoc)
    (pre : List String) (url : String) (rest : List String) (recs : List CompanyRecord)
    (hpre : crawl_all_pages fetchListing fetchDetail pre = Except.ok recs)
    (hfail : ∀ arts, fetchListing url = Except.ok arts →
      scrape_page_companies fetchDetail arts = Except.error ()) :
    crawl_all_pages fetchListing fetchDetail (pre ++ url :: rest) = Except.error () := by
  induction pre generalizing recs with
  | nil =>
    rw [List.nil_append]
    cases hf : fetchListing url with
    | error e =>
      cases e
      exact crawl_cons_err fetchDetail hf rest
    | ok arts =>
      rw [crawl_cons_ok fetchDetail hf rest, hfail arts hf]
  | cons p l ih =>
    rw [List.cons_append]
    cases hf : fetchListing p with
    | error e =>
      cases e
      rw [crawl_cons_err fetchDetail hf l] at hpre
      exact Except.noConfusion hpre
    | ok arts =>
      rw [crawl_cons_ok fetchDetail hf l] at hpre
      rw [crawl_cons_ok fetchDetail hf (l ++ url :: rest)]
      cases hs : scrape_page_companies fetchDetail arts with
      | error e => rfl
      | ok pageRecs =>
        cases ht : crawl_all_pages fetchListing fetchDetail l with
        | error e =>
          rw [hs, ht] at hpre
          exact Except.noConfusion hpre
        | ok acc => rw [ih acc ht]

/-- Witness for the amended C3 at concrete inputs. -/
theorem claim_C3_witness :
    crawl_all_pages fetchListingFailP1 fetchA (["p2"] ++ "p1" :: ["p3"]) =
      Except.error () :=
  claim_C3 fetchListingFailP1 fetchA ["p2"] "p1" ["p3"] [recA] rfl
    (fun _ hf => Except.noConfusion hf)

/-! ### Claim C1 -/

/-- Claim C1, confirmed: for every homepage URL and every homepage
document whose pagination block's last link encodes the page count `n`
in its second-to-last path segment, `get_pages_url_list` returns exactly
`n` page URLs in order: the 1st is the homepage URL verbatim and the
`k`-th (`k > 1`) is the homepage URL concatenated with
`page/` `k` `/`. -/
theorem claim_C1 (homepage_url : String) (navLinks : List String) (lastLink : String)
    (seg : List Char) (n : Nat)
    (h1 : navLinks.getLast? = some lastLink)
    (h2 : (splitOnChar '/' lastLink.data).reverse[1]? = some seg)
    (h3 : charsToNat? seg = some n) :
    ∃ l, get_pages_url_list homepage_url (some navLinks) = some l ∧
      l.length = n ∧
      (1 ≤ n → l[0]? = some homepage_url) ∧
      (∀ k, 2 ≤ k → k ≤ n →
        l[k - 1]? = some (homepage_url ++ "page/" ++ Nat.repr k ++ "/")) := by
  have hnum : get_website_num_pages (some navLinks) = some n := by
    rw [get_website_num_pages, h1]
    show (match (splitOnChar '/' lastLink.data).reverse[1]? with
          | none => none
          | some seg => charsToNat? seg) = some n
    rw [h2]
    exact h3
  refine ⟨_, by rw [get_pages_url_list, hnum], ?_, ?_, ?_⟩
  · simp [List.length_range']
  · intro hn
    rw [List.getElem?_map, List.getElem?_range' _ _ hn]
    simp
  · intro k hk2 hkn
    have hlt : k - 1 < n := by omega
    rw [List.getElem?_map, List.getElem?_range' _ _ hlt]
    have hke : 1 + 1 * (k - 1) = k := by omega
    rw [hke, Option.map_some', if_neg (by omega)]

/-- Witness for C1 at a concrete input: a pagination block whose last
link is `h/page/3/`, so the encoded page count is 3. -/
theorem claim_C1_witness :
    (["h/page/3/"] : List String).getLast? = some "h/page/3/" ∧
    (splitOnChar '/' ("h/page/3/").data).reverse[1]? = some ['3'] ∧
    charsToNat? ['3'] = some 3 ∧
    ∃ l, get_pages_url_list "h/" (some ["h/page/3/"]) = some l ∧
      l.length = 3 ∧
      (1 ≤ 3 → l[0]? = some "h/") ∧
      (∀ k, 2 ≤ k → k ≤ 3 → l[k - 1]? = some ("h/" ++ "page/" ++ Nat.repr k ++ "/")) :=
  ⟨rfl, by decide, by decide,
    claim_C1 "h/" ["h/page/3/"] "h/page/3/" ['3'] 3 rfl (by decide) (by decide)⟩

/-! ### Claim C7 -/

/-- Claim C7, confirmed (refinement): the source translation
`get_company_urls` coincides, on every input sequence of URLs, with
`classify_spec`, the classifier written from the spec's words — each
social category gets the first URL containing its token (else null) and
the website gets the first URL left after removing the four claimed
values (else null). -/
theorem claim_C7 (urls : List String) : get_company_urls urls = classify_spec urls := by
  simp only [get_company_urls, classify_spec, find?_eq_firstOrNone]
  congr 1
  rw [firstOrNone_eq_head?]
  congr 1
  apply List.filter_congr
  intro l _
  rw [Bool.eq_iff_iff]
  simp [List.contains_cons, Bool.not_or, and_assoc]

/-! ### Claim C6 -/

/-- Claim C6, counterexample: on the input `["linkedintwitter"]` — one
URL containing two platform tokens — the linkedin and twitter fields
both claim the same input URL, so the five output fields are not
pairwise disjoint and the URL is claimed by two categories. -/
theorem claim_C6_cex :
    (get_company_urls ["linkedintwitter"]).linkedin = some "linkedintwitter" ∧
    (get_company_urls ["linkedintwitter"]).twitter = some "linkedintwitter" ∧
    ¬(∀ u, claimCount (get_company_urls ["linkedintwitter"]) u ≤ 1) :=
  ⟨rfl, rfl, fun h => absurd (h "linkedintwitter") (by decide)⟩

/-- Claim C6, amended: when no input URL contains two different platform
tokens, the five output fields are pairwise disjoint — each input URL is
claimed by at most one category — and, unconditionally (for every input,
multi-token URLs included), the website field is non-null only when at
least one URL unclaimed by the four social categories remains.  (Without
the proviso on the first half, a URL containing two tokens is claimed by
several social categories at once.) -/
theorem claim_C6 (links : List String) :
    ((∀ l ∈ links, ∀ t1 ∈ socialTokens, ∀ t2 ∈ socialTokens,
      hasToken l t1 = true → hasToken l t2 = true → t1 = t2) →
      ∀ u, claimCount (get_company_urls links) u ≤ 1) ∧
    (∀ w, (get_company_urls links).company_website = some w →
      ∃ l ∈ links, some l ≠ (get_company_urls links).linkedin ∧
        some l ≠ (get_company_urls links).twitter ∧
        some l ≠ (get_company_urls links).instagram ∧
        some l ≠ (get_company_urls links).facebook) := by
  constructor
  · intro hTok u
    have hwl : ¬((get_company_urls links).company_website = some u ∧
        (get_company_urls links).linkedin = some u) :=
      fun hp => ((website_some hp.1).1.1) hp.2.symm
    have hwt : ¬((get_company_urls links).company_website = some u ∧
        (get_company_urls links).twitter = some u) :=
      fun hp => ((website_some hp.1).1.2.1) hp.2.symm
    have hwi : ¬((get_company_urls links).company_website = some u ∧
        (get_company_urls links).instagram = some u) :=
      fun hp => ((website_some hp.1).1.2.2.1) hp.2.symm
    have hwf : ¬((get_company_urls links).company_website = some u ∧
        (get_company_urls links).facebook = some u) :=
      fun hp => ((website_some hp.1).1.2.2.2) hp.2.symm
    have hlt : ¬((get_company_urls links).linkedin = some u ∧
        (get_company_urls links).twitter = some u) := fun hp =>
      absurd (hTok u (linkedin_some hp.1).2 "linkedin" (by simp [socialTokens])
        "twitter" (by simp [socialTokens]) (linkedin_some hp.1).1 (twitter_some hp.2).1)
        (by decide)
    have hlig : ¬((get_company_urls links).linkedin = some u ∧
        (get_company_urls links).instagram = some u) := fun hp =>
      absurd (hTok u (linkedin_some hp.1).2 "linkedin" (by simp [socialTokens])
        "instagram" (by simp [socialTokens]) (linkedin_some hp.1).1
        (instagram_some hp.2).1) (by decide)
    have hlf : ¬((get_company_urls links).linkedin = some u ∧
        (get_company_urls links).facebook = some u) := fun hp =>
      absurd (hTok u (linkedin_some hp.1).2 "linkedin" (by simp [socialTokens])
        "facebook" (by simp [socialTokens]) (linkedin_some hp.1).1
        (facebook_some hp.2).1) (by decide)
    have htig : ¬((get_company_urls links).twitter = some u ∧
        (get_company_urls links).instagram = some u) := fun hp =>
      absurd (hTok u (twitter_some hp.1).2 "twitter" (by simp [socialTokens])
        "instagram" (by simp [socialTokens]) (twitter_some hp.1).1
        (instagram_some hp.2).1) (by decide)
    have htf : ¬((get_company_urls links).twitter = some u ∧
        (get_company_urls links).facebook = some u) := fun hp =>
      absurd (hTok u (twitter_some hp.1).2 "twitter" (by simp [socialTokens])
        "facebook" (by simp [socialTokens]) (twitter_some hp.1).1
        (facebook_some hp.2).1) (by decide)
    have higf : ¬((get_company_urls links).instagram = some u ∧
        (get_company_urls links).facebook = some u) := fun hp =>
      absurd (hTok u (instagram_some hp.1).2 "instagram" (by simp [socialTokens])
        "facebook" (by simp [socialTokens]) (instagram_some hp.1).1
        (facebook_some hp.2).1) (by decide)
    exact count_le_one _ _ _ _ _ u hwl
      hwf hwt hwi hlf hlt hlig
      (fun hp => htf ⟨hp.2, hp.1⟩) (fun hp => higf ⟨hp.2, hp.1⟩) htig
  · intro w hw
    rcases website_some hw with ⟨⟨d1, d2, d3, d4⟩, hmem⟩
    exact ⟨w, hmem, d1, d2, d3, d4⟩

/-- Witness for the amended C6: the disjointness half is instantiated at
a concrete single-token input with its no-multi-token hypothesis
discharged, and the unconditional website half is instantiated at a
concrete multi-token input that the hypothesis would exclude. -/
theorem claim_C6_witness :
    (∀ l ∈ (["alinkedin", "bsite"] : List String), ∀ t1 ∈ socialTokens,
      ∀ t2 ∈ socialTokens, hasToken l t1 = true → hasToken l t2 = true → t1 = t2) ∧
    (∀ u, claimCount (get_company_urls ["alinkedin", "bsite"]) u ≤ 1) ∧
    (∀ w, (get_company_urls ["linkedintwitter", "bsite"]).company_website = some w →
      ∃ l ∈ (["linkedintwitter", "bsite"] : List String),
        some l ≠ (get_company_urls ["linkedintwitter", "bsite"]).linkedin ∧
        some l ≠ (get_company_urls ["linkedintwitter", "bsite"]).twitter ∧
        some l ≠ (get_company_urls ["linkedintwitter", "bsite"]).instagram ∧
        some l ≠ (get_company_urls ["linkedintwitter", "bsite"]).facebook) :=
  ⟨by decide, (claim_C6 ["alinkedin", "bsite"]).1 (by decide),
    (claim_C6 ["linkedintwitter", "bsite"]).2⟩

/-! ### Claim C8 -/

/-- Claim C8, counterexample: on `["alinkedin", "blinkedin"]` the
classifier claims `alinkedin` for linkedin and makes `blinkedin` the
website; re-running on its own non-null output values (in
output-dictionary order, website first) reassigns `blinkedin` to
linkedin — not a no-op, so classification is not idempotent as
claimed. -/
theorem claim_C8_cex :
    (get_company_urls ["alinkedin", "blinkedin"]).linkedin = some "alinkedin" ∧
    (get_company_urls ["alinkedin", "blinkedin"]).company_website = some "blinkedin" ∧
    (get_company_urls (outputValues (get_company_urls ["alinkedin", "blinkedin"]))).linkedin =
      some "blinkedin" ∧
    get_company_urls (outputValues (get_company_urls ["alinkedin", "blinkedin"])) ≠
      get_company_urls ["alinkedin", "blinkedin"] :=
  ⟨rfl, rfl, rfl, by decide⟩

/-- Claim C8, amended: classification is deterministic (it is a pure
function of the input sequence), and re-running it on its own non-null
output values is a no-op provided every output value that contains a
platform token is exactly the value that token's category claimed —
the condition the counterexample violates, since there a second
token-bearing URL survives as the website value. -/
theorem claim_C8 (links : List String)
    (h : ∀ l ∈ outputValues (get_company_urls links), ∀ t ∈ socialTokens,
      hasToken l t = true → some l = socialValue (get_company_urls links) t) :
    get_company_urls (outputValues (get_company_urls links)) = get_company_urls links := by
  have hli : (get_company_urls (outputValues (get_company_urls links))).linkedin =
      (get_company_urls links).linkedin := by
    rw [gcu_linkedin]
    refine foFilter_eq (fun x hx hpx => ?_) (fun x hvx => ?_)
    · have := h x hx "linkedin" (by simp [socialTokens]) hpx
      rwa [socialValue_linkedin] at this
    · refine ⟨?_, (linkedin_some hvx).1⟩
      simp only [outputValues, List.mem_filterMap]
      exact ⟨(get_company_urls links).linkedin, by simp, by simpa using hvx⟩
  have htw : (get_company_urls (outputValues (get_company_urls links))).twitter =
      (get_company_urls links).twitter := by
    rw [gcu_twitter]
    refine foFilter_eq (fun x hx hpx => ?_) (fun x hvx => ?_)
    · have := h x hx "twitter" (by simp [socialTokens]) hpx
      rwa [socialValue_twitter] at this
    · refine ⟨?_, (twitter_some hvx).1⟩
      simp only [outputValues, List.mem_filterMap]
      exact ⟨(get_company_urls links).twitter, by simp, by simpa using hvx⟩
  have hig : (get_company_urls (outputValues (get_company_urls links))).instagram =
      (get_company_urls links).instagram := by
    rw [gcu_instagram]
    refine foFilter_eq (fun x hx hpx => ?_) (fun x hvx => ?_)
    · have := h x hx "instagram" (by simp [socialTokens]) hpx
      rwa [socialValue_instagram] at this
    · refine ⟨?_, (instagram_some hvx).1⟩
      simp only [outputValues, List.mem_filterMap]
      exact ⟨(get_company_urls links).instagram, by simp, by simpa using hvx⟩
  have hfb : (get_company_urls (outputValues (get_company_urls links))).facebook =
      (get_company_urls links).facebook := by
    rw [gcu_facebook]
    refine foFilter_eq (fun x hx hpx => ?_) (fun x hvx => ?_)
    · have := h x hx "facebook" (by simp [socialTokens]) hpx
      rwa [socialValue_facebook] at this
    · refine ⟨?_, (facebook_some hvx).1⟩
      simp only [outputValues, List.mem_filterMap]
      exact ⟨(get_company_urls links).facebook, by simp, by simpa using hvx⟩
  have hw : (get_company_urls (outputValues (get_company_urls links))).company_website =
      (get_company_urls links).company_website := by
    rw [gcu_website, hli, htw, hig, hfb]
    refine foFilter_eq (fun x hx hpx => ?_) (fun x hvx => ?_)
    · rcases (notContains4_iff _ _ _ _ x).1 hpx with ⟨n1, n2, n3, n4⟩
      simp only [outputValues, List.mem_filterMap] at hx
      obtain ⟨o, ho, hox⟩ := hx
      simp only [id_eq] at hox
      subst hox
      simp only [List.mem_cons, List.not_mem_nil, or_false] at ho
      rcases ho with h1 | h1 | h1 | h1 | h1
      · exact h1
      · exact absurd h1 n1
      · exact absurd h1 n4
      · exact absurd h1 n2
      · exact absurd h1 n3
    · rcases website_some hvx with ⟨⟨d1, d2, d3, d4⟩, _⟩
      refine ⟨?_, (notContains4_iff _ _ _ _ x).2 ⟨d1, d2, d3, d4⟩⟩
      simp only [outputValues, List.mem_filterMap]
      exact ⟨(get_company_urls links).company_website, by simp, by simpa using hvx⟩
  exact CompanyUrls.ext hw hli hfb htw hig

/-- Witness for the amended C8 at a concrete input whose output values
each carry only their own category's token. -/
theorem claim_C8_witness :
    (∀ l ∈ outputValues (get_company_urls ["alinkedin", "btwitter", "csite"]),
      ∀ t ∈ socialTokens, hasToken l t = true →
        some l = socialValue (get_company_urls ["alinkedin", "btwitter", "csite"]) t) ∧
    get_company_urls (outputValues (get_company_urls ["alinkedin", "btwitter", "csite"])) =
      get_company_urls ["alinkedin", "btwitter", "csite"] :=
  ⟨by decide, claim_C8 ["alinkedin", "btwitter", "csite"] (by decide)⟩

/-! ### Claim C10 -/

/-- A URL not containing a platform's token can never be that
category's claimed value. -/
theorem linkedin_ne_of_noToken {links : List String} {b : String}
    (hnb : hasToken b "linkedin" = false) :
    some b ≠ (get_company_urls links).linkedin := by
  intro h
  simp [(linkedin_some h.symm).1] at hnb

theorem twitter_ne_of_noToken {links : List String} {b : String}
    (hnb : hasToken b "twitter" = false) :
    some b ≠ (get_company_urls links).twitter := by
  intro h
  simp [(twitter_some h.symm).1] at hnb

theorem instagram_ne_of_noToken {links : List String} {b : String}
    (hnb : hasToken b "instagram" = false) :
    some b ≠ (get_company_urls links).instagram := by
  intro h
  simp [(instagram_some h.symm).1] at hnb

theorem facebook_ne_of_noToken {links : List String} {b : String}
    (hnb : hasToken b "facebook" = false) :
    some b ≠ (get_company_urls links).facebook := by
  intro h
  simp [(facebook_some h.symm).1] at hnb

/-- Claim C10, counterexample: `alinkedin` and `blinkedintwitter` are
distinct and both contain the token `linkedin`; the linkedin category
claims only the first, but the second does not remain unclaimed — the
twitter category claims it — and the website comes out null instead of
the second URL. -/
theorem claim_C10_cex :
    (get_company_urls ["alinkedin", "blinkedintwitter"]).linkedin = some "alinkedin" ∧
    (get_company_urls ["alinkedin", "blinkedintwitter"]).twitter =
      some "blinkedintwitter" ∧
    (get_company_urls ["alinkedin", "blinkedintwitter"]).company_website = none :=
  ⟨rfl, rfl, rfl⟩

/-- Claim C10, amended: if the category of token `t` claims the URL `a`
and the input also contains a different URL `b` (with token `t` but) with
no other platform token, then `b` is claimed by no social category, is
an element of the residual list from which the website is drawn, and
becomes the website value whenever it is the first element of that
residual list. -/
theorem claim_C10 (links : List String) (t a b : String)
    (ht : t ∈ socialTokens)
    (ha : socialValue (get_company_urls links) t = some a)
    (hb : b ∈ links) (hab : b ≠ a) (_hbt : hasToken b t = true)
    (hbother : ∀ t2 ∈ socialTokens, t2 ≠ t → hasToken b t2 = false) :
    (some b ≠ (get_company_urls links).linkedin ∧
     some b ≠ (get_company_urls links).twitter ∧
     some b ≠ (get_company_urls links).instagram ∧
     some b ≠ (get_company_urls links).facebook) ∧
    b ∈ links.filter (fun l =>
      !([(get_company_urls links).linkedin, (get_company_urls links).twitter,
         (get_company_urls links).instagram,
         (get_company_urls links).facebook].contains (some l))) ∧
    (firstOrNone (links.filter (fun l =>
        !([(get_company_urls links).linkedin, (get_company_urls links).twitter,
           (get_company_urls links).instagram,
           (get_company_urls links).facebook].contains (some l)))) = some b →
      (get_company_urls links).company_website = some b) := by
  have hne : some b ≠ (get_company_urls links).linkedin ∧
      some b ≠ (get_company_urls links).twitter ∧
      some b ≠ (get_company_urls links).instagram ∧
      some b ≠ (get_company_urls links).facebook := by
    have hmem : ∀ s : String, s ∈ socialTokens → s ≠ t → hasToken b s = false :=
      fun s hs hst => hbother s hs hst
    simp only [socialTokens, List.mem_cons, List.not_mem_nil, or_false] at ht
    rcases ht with rfl | rfl | rfl | rfl
    · rw [socialValue_linkedin] at ha
      refine ⟨?_, ?_, ?_, ?_⟩
      · rw [ha]
        exact fun he => hab (Option.some.injEq b a ▸ he : b = a)
      · exact twitter_ne_of_noToken (hmem "twitter" (by simp [socialTokens]) (by decide))
      · exact instagram_ne_of_noToken (hmem "instagram" (by simp [socialTokens]) (by decide))
      · exact facebook_ne_of_noToken (hmem "facebook" (by simp [socialTokens]) (by decide))
    · rw [socialValue_twitter] at ha
      refine ⟨?_, ?_, ?_, ?_⟩
      · exact linkedin_ne_of_noToken (hmem "linkedin" (by simp [socialTokens]) (by decide))
      · rw [ha]
        exact fun he => hab (Option.some.injEq b a ▸ he : b = a)
      · exact instagram_ne_of_noToken (hmem "instagram" (by simp [socialTokens]) (by decide))
      · exact facebook_ne_of_noToken (hmem "facebook" (by simp [socialTokens]) (by decide))
    · rw [socialValue_instagram] at ha
      refine ⟨?_, ?_, ?_, ?_⟩
      · exact linkedin_ne_of_noToken (hmem "linkedin" (by simp [socialTokens]) (by decide))
      · exact twitter_ne_of_noToken (hmem "twitter" (by simp [socialTokens]) (by decide))
      · rw [ha]
        exact fun he => hab (Option.some.injEq b a ▸ he : b = a)
      · exact facebook_ne_of_noToken (hmem "facebook" (by simp [socialTokens]) (by decide))
    · rw [socialValue_facebook] at ha
      refine ⟨?_, ?_, ?_, ?_⟩
      · exact linkedin_ne_of_noToken (hmem "linkedin" (by simp [socialTokens]) (by decide))
      · exact twitter_ne_of_noToken (hmem "twitter" (by simp [socialTokens]) (by decide))
      · exact instagram_ne_of_noToken (hmem "instagram" (by simp [socialTokens]) (by decide))
      · rw [ha]
        exact fun he => hab (Option.some.injEq b a ▸ he : b = a)
  refine ⟨hne, ?_, ?_⟩
  · exact List.mem_filter.2 ⟨hb, (notContains4_iff _ _ _ _ b).2 hne⟩
  · intro hfo
    rw [gcu_website]
    exact hfo

/-- Witness for the amended C10 at a concrete input: a second
linkedin-bearing URL with no other token lands in the residual list and
becomes the website. -/
theorem claim_C10_witness :
    ("linkedin" ∈ socialTokens) ∧
    (socialValue (get_company_urls ["alinkedin", "blinkedinz"]) "linkedin" =
      some "alinkedin") ∧
    ("blinkedinz" ∈ (["alinkedin", "blinkedinz"] : List String)) ∧
    ((some "blinkedinz" ≠ (get_company_urls ["alinkedin", "blinkedinz"]).linkedin ∧
      some "blinkedinz" ≠ (get_company_urls ["alinkedin", "blinkedinz"]).twitter ∧
      some "blinkedinz" ≠ (get_company_urls ["alinkedin", "blinkedinz"]).instagram ∧
      some "blinkedinz" ≠ (get_company_urls ["alinkedin", "blinkedinz"]).facebook) ∧
     "blinkedinz" ∈ (["alinkedin", "blinkedinz"] : List String).filter (fun l =>
       !([(get_company_urls ["alinkedin", "blinkedinz"]).linkedin,
          (get_company_urls ["alinkedin", "blinkedinz"]).twitter,
          (get_company_urls ["alinkedin", "blinkedinz"]).instagram,
          (get_company_urls ["alinkedin", "blinkedinz"]).facebook].contains (some l))) ∧
     (firstOrNone ((["alinkedin", "blinkedinz"] : List String).filter (fun l =>
         !([(get_company_urls ["alinkedin", "blinkedinz"]).linkedin,
            (get_company_urls ["alinkedin", "blinkedinz"]).twitter,
            (get_company_urls ["alinkedin", "blinkedinz"]).instagram,
            (get_company_urls ["alinkedin", "blinkedinz"]).facebook].contains (some l)))) =
          some "blinkedinz" →
       (get_company_urls ["alinkedin", "blinkedinz"]).company_website =
         some "blinkedinz")) :=
  ⟨by decide, by decide, by decide,
    claim_C10 ["alinkedin", "blinkedinz"] "linkedin" "alinkedin" "blinkedinz"
      (by decide) (by decide) (by decide) (by decide) (by decide) (by decide)⟩

end GptwScraper
